import Mathlib

/-!
Shallow embedding of the context-adapter layer of the actor-inspector agent
(`src/main.py`, `src/tools.py`, `src/tools_2.py`, `src/utils.py`,
`src/models.py`) together with proofs about the properties of the adapters.

Conventions used throughout the embedding:
* Python dictionaries coming back from the platform API are modelled as Lean
  structures whose optional keys are `Option` fields; a Python truthiness test
  (`if not x`) on a dict-valued or list-valued key collapses "absent", `None`
  and "empty" into `none` / `[]` exactly where the source only distinguishes
  falsy from truthy.
* Python exceptions (`raise ValueError`, pydantic `ValidationError`) are
  modelled with `Except String` / explicit error constructors.
* Timestamps (`datetime` values compared with `<`/`>`) are modelled as `Int`.
* JSON numbers carried through pydantic float fields are modelled as `Rat`;
  no code in scope computes with them, they are only stored and returned.
-/

namespace ActorInspector

/-! ### String helpers

`lowerStr` models Python `str.lower()` (character-wise lowering; all strings
the adapters compare are ASCII), `containsSub hay pat` models the Python
substring test `pat in hay`, and `splitOnChar` models `str.split('/')` as
used by `generate_file_tree`. -/

def lowerStr (s : String) : String := String.mk (s.data.map Char.toLower)

def containsSub (hay pat : String) : Bool :=
  (List.range (hay.data.length + 1)).any (fun i => pat.data.isPrefixOf (hay.data.drop i))

def splitOnChar (c : Char) : List Char → List (List Char)
  | [] => [[]]
  | x :: xs => match splitOnChar c xs with
    | [] => [[]]
    | h :: t => if x == c then [] :: h :: t else (x :: h) :: t

def pathParts (name : String) : List String := (splitOnChar '/' name.data).map String.mk

/-! ### Pricing data model (`src/models.py`) -/

/-- `ActorChargeEvent` from `src/models.py` (nested model for `pricingInfos`). -/
structure ActorChargeEvent where
  event_description : String
  event_price_usd : Rat
  event_title : String
deriving DecidableEq, Repr

/-- `PricingPerEvent` from `src/models.py`. -/
structure PricingPerEvent where
  actor_charge_events : Option (List (String × ActorChargeEvent)) := none
deriving DecidableEq, Repr

/-- `PricingInfo` pydantic model from `src/models.py`: `pricing_model` is the
only required field, every other field defaults to `None`. -/
structure PricingInfo where
  pricing_model : String
  price_per_unit_usd : Option Rat := none
  trial_minutes : Option Int := none
  apify_margin_percentage : Option Rat := none
  minimal_max_total_charge_usd : Option Rat := none
  pricing_per_event : Option PricingPerEvent := none
deriving DecidableEq, Repr

/-- One raw entry of the `pricingInfos` list returned by the platform for an
actor (camel-cased JSON keys, per the `to_camel` alias generator of
`src/models.py`).  `startedAt` is always present on a pricing entry: the loop
in `GetActorPricingInfoTool._run` compares it with `now` unconditionally. -/
structure PricingEntry where
  startedAt : Int
  pricingModel : Option String := none
  pricePerUnitUsd : Option Rat := none
  trialMinutes : Option Int := none
  apifyMarginPercentage : Option Rat := none
  minimalMaxTotalChargeUsd : Option Rat := none
  pricingPerEvent : Option PricingPerEvent := none
deriving DecidableEq, Repr

/-- Models `PricingInfo.model_validate(entry)` for a raw pricing entry: a
pydantic `ValidationError` is raised when the required `pricingModel` key is
absent, otherwise the camel-cased keys populate the model fields. -/
def PricingInfo.model_validate (e : PricingEntry) : Except String PricingInfo :=
  match e.pricingModel with
  | none => .error "ValidationError: pricing_model is a required field"
  | some m => .ok { pricing_model := m
                    price_per_unit_usd := e.pricePerUnitUsd
                    trial_minutes := e.trialMinutes
                    apify_margin_percentage := e.apifyMarginPercentage
                    minimal_max_total_charge_usd := e.minimalMaxTotalChargeUsd
                    pricing_per_event := e.pricingPerEvent }

/-- The scan loop of `GetActorPricingInfoTool._run` (`src/tools.py` lines
210-215, identical in `src/tools_2.py` lines 81-86):

    current_pricing = None
    for pricing_entry in pricing_info:
        if pricing_entry.get('startedAt') > now:
            break
        current_pricing = pricing_entry

The accumulator argument is `current_pricing`. -/
def selectCurrentPricing (now : Int) : List PricingEntry → Option PricingEntry → Option PricingEntry
  | [], current_pricing => current_pricing
  | e :: rest, current_pricing =>
    if now < e.startedAt then current_pricing
    else selectCurrentPricing now rest (some e)

/-- The actor record fields read by `GetActorPricingInfoTool._run` from
`apify_client.actor(actor_name).get()`. -/
structure ActorRecord where
  pricingInfos : Option (List PricingEntry) := none
deriving DecidableEq, Repr

/-- `GetActorPricingInfoTool._run` (`src/tools.py` lines 199-217, duplicated
verbatim in `src/tools_2.py` lines 70-88).  `actor` is the platform response
(`None` when the actor does not exist), `now` is `datetime.now(UTC)`.
`if not pricing_info` is Python-falsy: both an absent `pricingInfos` key and
an empty list take the default branch.  When the scan leaves
`current_pricing = None`, `PricingInfo.model_validate(None)` raises a
pydantic `ValidationError`. -/
def GetActorPricingInfoTool_run (actor_name : String) (actor : Option ActorRecord)
    (now : Int) : Except String PricingInfo :=
  match actor with
  | none => .error s!"Actor {actor_name} not found."
  | some a =>
    match a.pricingInfos with
    | none => .ok { pricing_model := "PAY_PER_PLATFORM_USAGE" }
    | some [] => .ok { pricing_model := "PAY_PER_PLATFORM_USAGE" }
    | some (e :: rest) =>
      match selectCurrentPricing now (e :: rest) none with
      | none => .error "ValidationError: None is not a valid PricingInfo"
      | some entry => PricingInfo.model_validate entry

/-! ### Helper lemmas about the pricing scan -/

/-- `optOr a b` is `a` when `a` is `some`, otherwise `b` (the shape of the
result of the scan loop: last kept entry, else the initial accumulator). -/
def optOr {α : Type} (a b : Option α) : Option α :=
  match a with
  | some x => some x
  | none => b

theorem selectCurrentPricing_eq_getLast (now : Int) (l : List PricingEntry)
    (hs : List.Pairwise (fun a b => a.startedAt ≤ b.startedAt) l) (cur : Option PricingEntry) :
    selectCurrentPricing now l cur =
      optOr ((l.filter (fun e => decide (e.startedAt ≤ now))).getLast?) cur := by
  induction l generalizing cur with
  | nil => simp [selectCurrentPricing, optOr]
  | cons e rest ih =>
    rcases List.pairwise_cons.mp hs with ⟨hhead, hrest⟩
    by_cases hlt : now < e.startedAt
    · have hfilter : (e :: rest).filter (fun x => decide (x.startedAt ≤ now)) = [] := by
        rw [List.filter_eq_nil_iff]
        intro a ha
        simp only [decide_eq_true_eq]
        rcases List.mem_cons.mp ha with rfl | hmem
        · omega
        · have := hhead a hmem
          omega
      simp [selectCurrentPricing, hlt, hfilter, optOr]
    · have hle : e.startedAt ≤ now := by omega
      have hstep : selectCurrentPricing now (e :: rest) cur =
          selectCurrentPricing now rest (some e) := by
        simp [selectCurrentPricing, hlt]
      rw [hstep, ih hrest]
      have hfilter : (e :: rest).filter (fun x => decide (x.startedAt ≤ now)) =
          e :: rest.filter (fun x => decide (x.startedAt ≤ now)) := by
        simp [List.filter_cons, hle]
      rw [hfilter]
      cases hrf : rest.filter (fun x => decide (x.startedAt ≤ now)) with
      | nil => simp [optOr]
      | cons y ys =>
        rw [List.getLast?_cons_cons]
        have : (y :: ys).getLast? = some ((y :: ys).getLast (by simp)) :=
          List.getLast?_eq_getLast_of_ne_nil (by simp)
        rw [this]
        simp [optOr]

/-! ### Build record and input-schema data model (`src/models.py`, `src/utils.py`) -/

/-- Opaque JSON value: input-schema `prefill`/`default` values are `Any` in
the source (`ActorInputProperty.default : Any | None`); no code in scope
inspects them, they are only moved between keys. -/
inductive JsonValue where
  | str (s : String)
  | num (q : Rat)
  | bool (b : Bool)
  | null
  | arr (l : List JsonValue)
  | obj (l : List (String × JsonValue))

/-- One raw property of the declared input schema
(`actor_input['properties'][name]` in `tool_get_actor_input_schema`).
`title`, `description` and `type` are required by the pydantic model
`ActorInputProperty`, so they are plain fields here; `prefill` and `default`
are optional keys of the raw dict.  The Python keyword-clashing key `type`
is named `ptype`. -/
structure RawInputProperty where
  title : String
  description : String
  ptype : String
  prefill : Option JsonValue := none
  default : Option JsonValue := none

/-- The `input` block of an actor definition.  `actor_input.get('properties', {})`
defaults to empty, so `properties` is a plain association list (ordered, as
Python dict items). -/
structure InputBlock where
  properties : List (String × RawInputProperty) := []

/-- The `actorDefinition` object of a build record.  A field is `none` when
the key is absent; for `input` the source only ever tests Python truthiness
(`if not (actor_input := actor_definition.get('input'))`), so `none` also
stands for a present-but-empty `input` block. -/
structure ActorDefinitionRec where
  title : Option String := none
  description : Option String := none
  readme : Option String := none
  input : Option InputBlock := none

/-- The `actVersion` object of a build record (`src/utils.py`
`get_actor_github_urls`). -/
structure ActVersionRec where
  gitRepoUrl : Option String := none

/-- The `data` payload of the default build returned by
`get_actor_latest_build` (`src/utils.py`).  `actorDefinition` is `none` when
the key is absent or Python-falsy (the source tests
`if not (actor_definition := build.get('actorDefinition'))`). -/
structure BuildRecord where
  actorDefinition : Option ActorDefinitionRec := none
  actVersion : Option ActVersionRec := none

/-- `ActorInputProperty` pydantic model from `src/models.py`. -/
structure ActorInputProperty where
  title : String
  description : String
  ptype : String
  default : Option JsonValue

/-- `ActorInputDefinition` pydantic model from `src/models.py`; `properties`
keeps the source dict's insertion order as an association list. -/
structure ActorInputDefinition where
  title : String
  description : String
  properties : List (String × ActorInputProperty)

/-- The per-property resolution step of `tool_get_actor_input_schema`
(`src/tools.py` lines 80-83):

    prop['default'] = prop.get('prefill', prop.get('default'))
    properties[name] = ActorInputProperty(**prop)
-/
def resolveProperty (prop : RawInputProperty) : ActorInputProperty :=
  { title := prop.title
    description := prop.description
    ptype := prop.ptype
    default := match prop.prefill with
      | some v => some v
      | none => prop.default }

/-- Result of `tool_get_actor_input_schema`: the tool returns
`ActorInputDefinition | str` and raises `ValueError` via exceptions. -/
inductive InputSchemaResult where
  | ok (d : ActorInputDefinition)
  | message (s : String)
  | error (s : String)

/-- `tool_get_actor_input_schema` (`src/tools.py` lines 54-89), applied to an
already-fetched build record.  Missing `actorDefinition` raises `ValueError`;
a falsy `input` block returns the sentinel string; otherwise the properties
are resolved one by one and an `ActorInputDefinition` is built.  The pydantic
constructor requires `title` and `description`, so passing
`actor_definition.get('title')` / `.get('description')` raises a
`ValidationError` when either is absent. -/
def tool_get_actor_input_schema (actor_name : String) (build : BuildRecord) : InputSchemaResult :=
  match build.actorDefinition with
  | none => .error s!"Actor definition not found in the Actor build for Actor: {actor_name}"
  | some actor_definition =>
    match actor_definition.input with
    | none => .message "Actor input schema is not available."
    | some actor_input =>
      let properties := actor_input.properties.map (fun np => (np.1, resolveProperty np.2))
      match actor_definition.title, actor_definition.description with
      | some t, some d => .ok { title := t, description := d, properties := properties }
      | _, _ => .error "ValidationError: title and description are required fields"

/-- The README lookup of `GetActorReadmeTool._run` (`src/tools.py` line 48):
`build.get('actorDefinition', {}).get('readme')`. -/
def readmeOf (build : BuildRecord) : Option String :=
  build.actorDefinition.bind ActorDefinitionRec.readme

/-- `GetActorReadmeTool._run` (`src/tools.py` lines 44-51), applied to an
already-fetched build record.  `if not readme` is Python-falsy: both an
absent key and an empty string raise the `ValueError`. -/
def GetActorReadmeTool_run (actor_name : String) (build : BuildRecord) : Except String String :=
  match readmeOf build with
  | none => .error s!"Failed to get the README for the Actor {actor_name}"
  | some readme =>
    if readme = "" then .error s!"Failed to get the README for the Actor {actor_name}"
    else .ok readme

/-! ### Source files, file tree and the code-context tool
(`src/utils.py`, `src/tools.py`) -/

/-- One bundled source file as stored on an actor version
(`latest_version.get('sourceFiles', [])` in `get_actor_source_files`).
`format` is read with `file.get('format', '')`, hence optional. -/
structure SourceFileRec where
  name : String
  content : String
  format : Option String := none
deriving DecidableEq, Repr

/-- One actor version as returned by `apify_client.actor(actor_id).versions().list().items`;
only the keys read by `src/utils.py` are modelled. -/
structure VersionRec where
  buildTag : Option String := none
  sourceFiles : List SourceFileRec := []
  gitRepoUrl : Option String := none
deriving DecidableEq, Repr

/-- `get_actor_source_files` (`src/utils.py` lines 130-147): pick the version
whose `buildTag` is `'latest'` and keep only files whose `format` lowercases
to `'text'`. -/
def get_actor_source_files (versions : List VersionRec) : List SourceFileRec :=
  match versions.find? (fun x => x.buildTag == some "latest") with
  | some latest_version =>
    latest_version.sourceFiles.filter (fun file => lowerStr (file.format.getD "") == "text")
  | none => []

/-- `get_actor_github_urls` (`src/utils.py` lines 89-113): the primary
build's `actVersion.gitRepoUrl` (when truthy) followed by every version's
truthy `gitRepoUrl`, in listing order. -/
def get_actor_github_urls (build : BuildRecord) (versions : List VersionRec) : List String :=
  (match build.actVersion with
   | some av =>
     (match av.gitRepoUrl with
      | some u => if u = "" then [] else [u]
      | none => [])
   | none => []) ++
  versions.filterMap (fun version =>
    match version.gitRepoUrl with
    | some u => if u = "" then none else some u
    | none => none)

/-- The nested-dict file tree built by `generate_file_tree`
(`src/utils.py` lines 54-86): a dict mapping a path segment to either `None`
(a file leaf) or a nested dict (a directory). -/
inductive FTree where
  | mk : List (String × Option FTree) → FTree

/-- Python dict read `d.get(k)` on a tree level. -/
def lookupKey (es : List (String × Option FTree)) (k : String) : Option (Option FTree) :=
  match es with
  | [] => none
  | (k2, v) :: rest => if k2 == k then some v else lookupKey rest k

/-- Python dict write `d[k] = v` on a tree level: update in place when the
key exists (keeping its position), append otherwise. -/
def setKey (es : List (String × Option FTree)) (k : String) (v : Option FTree) :
    List (String × Option FTree) :=
  match es with
  | [] => [(k, v)]
  | (k2, v2) :: rest => if k2 == k then (k, v) :: rest else (k2, v2) :: setKey rest k v

/-- The inner loop of `generate_file_tree` for one path: the last segment is
set to `None`; an intermediate segment descends into an existing sub-dict,
creating `{}` when absent.  Descending into a segment already mapped to
`None` raises a `TypeError` in Python (`part not in current` with
`current = None`), modelled by the `none` result. -/
def insertPath : FTree → List String → Option FTree
  | t0, [] => some t0
  | FTree.mk es, [part] => some (FTree.mk (setKey es part none))
  | FTree.mk es, part :: p2 :: rest =>
    match lookupKey es part with
    | some none => none
    | some (some sub) =>
      (insertPath sub (p2 :: rest)).map (fun s => FTree.mk (setKey es part (some s)))
    | none =>
      (insertPath (FTree.mk []) (p2 :: rest)).map (fun s => FTree.mk (setKey es part (some s)))
termination_by _ l => l.length

/-- `generate_file_tree` (`src/utils.py` lines 54-86): fold every file's
`name.split('/')` into the tree, starting from `{}`. -/
def generate_file_tree (files : List SourceFileRec) : Option FTree :=
  files.foldlM (fun tree file_info => insertPath tree (pathParts file_info.name)) (FTree.mk [])

/-- `FILES_TO_SKIP` (`src/tools.py` lines 94-103). -/
def FILES_TO_SKIP : List String :=
  [ "license"
  , "package-lock.json"
  , "yarn.lock"
  , "readme.md"
  , "poetry.lock"
  , "requirements.txt"
  , "setup.py"
  , "uv.lock" ]

/-- The denylist test of `tool_get_code_context`
(`src/tools.py` lines 126 and 145):
`any(substring in name.lower() for substring in FILES_TO_SKIP)`. -/
def skipFile (name : String) : Bool :=
  FILES_TO_SKIP.any (fun substring => containsSub (lowerStr name) substring)

/-- `CodeFile` pydantic model: imported from `src/models.py` by
`src/tools.py` but absent from the file snapshot; its shape
`{name, content}` is fixed by the constructor calls
`CodeFile(name=..., content=...)` in `tool_get_code_context` and by the
identical `GithubRepoFile` model in `src/models.py`. -/
structure CodeFile where
  name : String
  content : String
deriving DecidableEq, Repr

/-- `CodeContext` pydantic model: imported from `src/models.py` by
`src/tools.py` but absent from the file snapshot; its shape
`{tree, files}` is fixed by the constructor calls
`CodeContext(tree=..., files=...)` and by the identical `GithubRepoContext`
model in `src/models.py`. -/
structure CodeContext where
  tree : FTree
  files : List CodeFile

/-- The bundled-source filter of `tool_get_code_context`
(`src/tools.py` lines 123-127). -/
def filterSourceFiles (source_files : List SourceFileRec) : List CodeFile :=
  (source_files.filter (fun file => !skipFile file.name)).map
    (fun file => { name := file.name, content := file.content })

/-- One entry of the `files` mapping of the repository-rendering service
response (`data['files']` in `tool_get_code_context`); the key `type` is
named `ftype`. -/
structure RepoFileRec where
  content : String
  ftype : String
deriving DecidableEq, Repr

/-- The repository-files filter of `tool_get_code_context`
(`src/tools.py` lines 142-146). -/
def filterRepoFiles (files : List (String × RepoFileRec)) : List CodeFile :=
  (files.filter (fun nf => !skipFile nf.1 && nf.2.ftype == "content")).map
    (fun nf => { name := nf.1, content := nf.2.content })

/-- A well-formed JSON response of the repository-rendering service:
`data['tree']` (required key, never inspected further) and `data.get('files', {})`. -/
structure UithubData where
  tree : FTree
  files : List (String × RepoFileRec) := []

/-- The external responses `tool_get_code_context` consumes: the actor's
version list, the default build record, the per-URL `github_repo_exists`
HTTP probe, and the per-URL repository-rendering fetch (URL-to-path munging
and the token budget are absorbed into the fetch oracle; they do not affect
which files are returned). -/
structure CodeEnv where
  versions : List VersionRec
  build : BuildRecord
  repoExists : String → Bool
  fetch : String → UithubData

/-- Result of `tool_get_code_context`: the tool returns `CodeContext | str`
(the string being the not-available sentinel) and can only fail by an
exception escaping (modelled by `error`). -/
inductive CodeToolResult where
  | context (c : CodeContext)
  | message (s : String)
  | error (s : String)

/-- `tool_get_code_context` (`src/tools.py` lines 106-150).  With bundled
source files present, build the tree and the filtered file list; otherwise
probe the GitHub URLs in order and render the first existing repository;
with neither, return the sentinel string. -/
def tool_get_code_context (actor_name : String) (env : CodeEnv) : CodeToolResult :=
  let source_files := get_actor_source_files env.versions
  if source_files.isEmpty then
    let repo_urls := get_actor_github_urls env.build env.versions
    match repo_urls.find? env.repoExists with
    | some repo_url =>
      let data := env.fetch repo_url
      .context { tree := data.tree, files := filterRepoFiles data.files }
    | none =>
      .message s!"Code for Actor {actor_name} is not available. Skip the tool and grade the code as N/A."
  else
    match generate_file_tree source_files with
    | none => .error "TypeError raised inside generate_file_tree"
    | some tree => .context { tree := tree, files := filterSourceFiles source_files }

/-! ### Entry-point input handling (`src/main.py`) -/

/-- The invocation payload read by `main` via `Actor.get_input()`.  Each
field is `none` when the key is absent and `some none` when the key is
present with JSON `null` (the distinction matters for the dict merge). -/
structure ActorInputPayload where
  actorId : Option (Option String) := none
  modelName : Option (Option String) := none
  debug : Option (Option Bool) := none

/-- `fallback_input` (`src/main.py` lines 23-26). -/
def fallback_input : List (String × String) :=
  [("actorId", "apify/rag-web-browser"), ("modelName", "gpt-4o-mini")]

/-- The merge `actor_input = {**fallback_input, **actor_input}` followed by
`actor_input.get('actorId')` (`src/main.py` lines 43-45): an explicit key in
the payload wins, otherwise the fallback value `'apify/rag-web-browser'`. -/
def mergedActorId (actor_input : ActorInputPayload) : Option String :=
  match actor_input.actorId with
  | some v => v
  | none => some "apify/rag-web-browser"

/-- The input-validation step of `main` (`src/main.py` lines 51-52):
`if not actor_id: raise ValueError(...)` — Python-falsy, so both `None` and
the empty string raise; any other value is accepted and the run proceeds to
the network calls. -/
def main_resolve_actor_id (actor_input : ActorInputPayload) : Except String String :=
  match mergedActorId actor_input with
  | none => .error "Missing the \"actorId\" attribute in the input!"
  | some actor_id =>
    if actor_id = "" then .error "Missing the \"actorId\" attribute in the input!"
    else .ok actor_id

/-! ### Helper lemmas about the code-context filters -/

theorem skipFile_eq_false_iff (name : String) :
    skipFile name = false ↔
      ∀ substring ∈ FILES_TO_SKIP, containsSub (lowerStr name) substring = false := by
  unfold skipFile
  rw [List.any_eq_false]
  constructor
  · intro h s hs
    have := h s hs
    simpa using this
  · intro h s hs
    simp [h s hs]

theorem mem_filterSourceFiles_not_skipped (source_files : List SourceFileRec) (f : CodeFile)
    (h : f ∈ filterSourceFiles source_files) : skipFile f.name = false := by
  unfold filterSourceFiles at h
  rcases List.mem_map.mp h with ⟨file, hmem, heq⟩
  rcases List.mem_filter.mp hmem with ⟨_, hkeep⟩
  have hname : f.name = file.name := by rw [← heq]
  rw [hname]
  simpa using hkeep

theorem mem_filterRepoFiles_not_skipped (files : List (String × RepoFileRec)) (f : CodeFile)
    (h : f ∈ filterRepoFiles files) : skipFile f.name = false := by
  unfold filterRepoFiles at h
  rcases List.mem_map.mp h with ⟨nf, hmem, heq⟩
  rcases List.mem_filter.mp hmem with ⟨_, hkeep⟩
  have hname : f.name = nf.1 := by rw [← heq]
  rw [hname]
  have := (Bool.and_eq_true _ _).mp hkeep
  simpa using this.1

theorem tool_get_code_context_files (actor_name : String) (env : CodeEnv) (c : CodeContext)
    (h : tool_get_code_context actor_name env = .context c) :
    (∃ source_files, c.files = filterSourceFiles source_files) ∨
    (∃ files, c.files = filterRepoFiles files) := by
  simp only [tool_get_code_context] at h
  split at h
  · split at h
    · rename_i data heq
      right
      exact ⟨(env.fetch data).files, by cases h; rfl⟩
    · cases h
  · split at h
    · cases h
    · left
      exact ⟨get_actor_source_files env.versions, by cases h; rfl⟩

/-! ### Claims about the code-context tool -/

/-- C2: every `CodeContext` the code-context tool returns — whether built
from bundled source files or from the repository-rendering service — contains
no file whose name case-insensitively contains a denylisted substring of
`FILES_TO_SKIP`. -/
theorem c2_code_context_excludes_denylisted (actor_name : String) (env : CodeEnv)
    (c : CodeContext) (h : tool_get_code_context actor_name env = .context c) :
    ∀ f ∈ c.files, ∀ substring ∈ FILES_TO_SKIP,
      containsSub (lowerStr f.name) substring = false := by
  intro f hf
  rcases tool_get_code_context_files actor_name env c h with ⟨sf, hsf⟩ | ⟨rf, hrf⟩
  · rw [hsf] at hf
    exact (skipFile_eq_false_iff f.name).mp (mem_filterSourceFiles_not_skipped sf f hf)
  · rw [hrf] at hf
    exact (skipFile_eq_false_iff f.name).mp (mem_filterRepoFiles_not_skipped rf f hf)

/-- C2 witness: a concrete repository fetch containing `LICENSE` next to
`src/main.py`; the returned context keeps only the latter and satisfies the
denylist invariant. -/
theorem c2_witness :
    tool_get_code_context "apify/some-actor"
      { versions := []
        build := { actorDefinition := none
                   actVersion := some { gitRepoUrl := some "https://github.com/apify/x" } }
        repoExists := fun _ => true
        fetch := fun _ =>
          { tree := FTree.mk []
            files := [("src/main.py", { content := "print(1)", ftype := "content" }),
                      ("LICENSE", { content := "MIT", ftype := "content" })] } } =
      .context { tree := FTree.mk []
                 files := [{ name := "src/main.py", content := "print(1)" }] } ∧
    ∀ f ∈ ({ tree := FTree.mk []
             files := [{ name := "src/main.py", content := "print(1)" }] } : CodeContext).files,
      ∀ substring ∈ FILES_TO_SKIP, containsSub (lowerStr f.name) substring = false := by
  refine ⟨rfl, ?_⟩
  exact c2_code_context_excludes_denylisted "apify/some-actor"
    { versions := []
      build := { actorDefinition := none
                 actVersion := some { gitRepoUrl := some "https://github.com/apify/x" } }
      repoExists := fun _ => true
      fetch := fun _ =>
        { tree := FTree.mk []
          files := [("src/main.py", { content := "print(1)", ftype := "content" }),
                    ("LICENSE", { content := "MIT", ftype := "content" })] } }
    { tree := FTree.mk []
      files := [{ name := "src/main.py", content := "print(1)" }] } rfl

/-- C3: when the latest build carries no bundled source files and none of the
discovered GitHub repository URLs resolves, `tool_get_code_context` returns
the not-available sentinel string (grade the code as N/A) and raises no
error. -/
theorem c3_sentinel_when_code_unavailable (actor_name : String) (env : CodeEnv)
    (hsf : get_actor_source_files env.versions = [])
    (hurl : ∀ u ∈ get_actor_github_urls env.build env.versions, env.repoExists u = false) :
    tool_get_code_context actor_name env =
      .message s!"Code for Actor {actor_name} is not available. Skip the tool and grade the code as N/A." := by
  have hfind : (get_actor_github_urls env.build env.versions).find? env.repoExists = none := by
    rw [List.find?_eq_none]
    intro x hx
    simp [hurl x hx]
  simp [tool_get_code_context, hsf, hfind]

/-- C3 witness: an actor with one version lacking bundled files, whose only
git URL does not resolve. -/
theorem c3_witness :
    get_actor_source_files [{ buildTag := some "latest", sourceFiles := [],
                              gitRepoUrl := some "https://github.com/apify/old" }] = [] ∧
    tool_get_code_context "apify/bare-actor"
      { versions := [{ buildTag := some "latest", sourceFiles := [],
                       gitRepoUrl := some "https://github.com/apify/old" }]
        build := { actorDefinition := none, actVersion := none }
        repoExists := fun _ => false
        fetch := fun _ => { tree := FTree.mk [], files := [] } } =
      .message "Code for Actor apify/bare-actor is not available. Skip the tool and grade the code as N/A." := by
  refine ⟨rfl, ?_⟩
  exact c3_sentinel_when_code_unavailable "apify/bare-actor" _ rfl (by intro u hu; rfl)

/-- C10: the denylist is matched against the entire lower-cased file path,
not just the basename: any file whose full path contains a denylisted
substring (also inside a directory segment) is excluded from both filter
paths, as witnessed by a path with a clean basename under a `License`
directory. -/
theorem c10_denylist_matches_full_path :
    (∀ (files : List SourceFileRec) (substring name : String),
      substring ∈ FILES_TO_SKIP → containsSub (lowerStr name) substring = true →
      name ∉ (filterSourceFiles files).map CodeFile.name) ∧
    (∀ (files : List (String × RepoFileRec)) (substring name : String),
      substring ∈ FILES_TO_SKIP → containsSub (lowerStr name) substring = true →
      name ∉ (filterRepoFiles files).map CodeFile.name) ∧
    skipFile "src/License-Files/helper.py" = true ∧
    skipFile "helper.py" = false := by
  refine ⟨?_, ?_, by decide, by decide⟩
  · intro files substring name hsub hcontains hmem
    rcases List.mem_map.mp hmem with ⟨f, hf, hname⟩
    have hskip := mem_filterSourceFiles_not_skipped files f hf
    rw [hname] at hskip
    rw [(skipFile_eq_false_iff name).mp hskip substring hsub] at hcontains
    cases hcontains
  · intro files substring name hsub hcontains hmem
    rcases List.mem_map.mp hmem with ⟨f, hf, hname⟩
    have hskip := mem_filterRepoFiles_not_skipped files f hf
    rw [hname] at hskip
    rw [(skipFile_eq_false_iff name).mp hskip substring hsub] at hcontains
    cases hcontains

/-- C10 witness: `src/License-Files/helper.py` — whose basename
`helper.py` is clean — is excluded from a concrete bundled-source filter. -/
theorem c10_witness :
    "src/License-Files/helper.py" ∉
      (filterSourceFiles
        [{ name := "src/License-Files/helper.py", content := "x", format := some "text" },
         { name := "src/main.py", content := "y", format := some "text" }]).map CodeFile.name :=
  c10_denylist_matches_full_path.1 _ "license" "src/License-Files/helper.py"
    (by decide) (by decide)

/-! ### Claims about the pricing adapter -/

/-- C1: on a non-empty pricing-entry list sorted ascending by `startedAt`,
the scan of `GetActorPricingInfoTool._run` — walking the list in order and
stopping at the first future-dated entry — selects exactly the last entry
whose start time is not after `now`, and re-running the selection (feeding
its own result back as the accumulator) yields the same entry. -/
theorem c1_current_pricing_is_last_not_future (now : Int) (entries : List PricingEntry)
    (_hne : entries ≠ [])
    (hsorted : List.Pairwise (fun a b => a.startedAt ≤ b.startedAt) entries) :
    selectCurrentPricing now entries none =
      (entries.filter (fun e => decide (e.startedAt ≤ now))).getLast? ∧
    selectCurrentPricing now entries (selectCurrentPricing now entries none) =
      selectCurrentPricing now entries none := by
  have hbase : selectCurrentPricing now entries none =
      optOr ((entries.filter (fun e => decide (e.startedAt ≤ now))).getLast?) none :=
    selectCurrentPricing_eq_getLast now entries hsorted none
  have h1 : selectCurrentPricing now entries none =
      (entries.filter (fun e => decide (e.startedAt ≤ now))).getLast? := by
    rw [hbase]
    cases (entries.filter (fun e => decide (e.startedAt ≤ now))).getLast? <;> simp [optOr]
  refine ⟨h1, ?_⟩
  rw [selectCurrentPricing_eq_getLast now entries hsorted
    (selectCurrentPricing now entries none), h1]
  cases (entries.filter (fun e => decide (e.startedAt ≤ now))).getLast? <;> simp [optOr]

/-- C1 witness: the spec's scenario — a past entry followed by a
future-dated one — selects the past entry, and re-selection is stable. -/
theorem c1_witness :
    selectCurrentPricing 5
        [{ startedAt := 1, pricingModel := some "PAY_PER_USAGE" },
         { startedAt := 10, pricingModel := some "RENTAL" }] none =
      ([{ startedAt := 1, pricingModel := some "PAY_PER_USAGE" },
        { startedAt := 10, pricingModel := some "RENTAL" }].filter
          (fun e : PricingEntry => decide (e.startedAt ≤ 5))).getLast? ∧
    selectCurrentPricing 5
        [{ startedAt := 1, pricingModel := some "PAY_PER_USAGE" },
         { startedAt := 10, pricingModel := some "RENTAL" }]
        (selectCurrentPricing 5
          [{ startedAt := 1, pricingModel := some "PAY_PER_USAGE" },
           { startedAt := 10, pricingModel := some "RENTAL" }] none) =
      selectCurrentPricing 5
        [{ startedAt := 1, pricingModel := some "PAY_PER_USAGE" },
         { startedAt := 10, pricingModel := some "RENTAL" }] none :=
  c1_current_pricing_is_last_not_future 5
    [{ startedAt := 1, pricingModel := some "PAY_PER_USAGE" },
     { startedAt := 10, pricingModel := some "RENTAL" }]
    (by decide) (by decide)

/-- C5 counterexample: the claim says the default snapshot's pricing model is
`PAY_PER_USAGE`, but on an actor with no pricing entries the code returns
the literal `'PAY_PER_PLATFORM_USAGE'`, a different string. -/
theorem c5_counterexample :
    GetActorPricingInfoTool_run "apify/rag-web-browser" (some { pricingInfos := none }) 0 =
      .ok { pricing_model := "PAY_PER_PLATFORM_USAGE" } ∧
    "PAY_PER_PLATFORM_USAGE" ≠ "PAY_PER_USAGE" := by
  exact ⟨rfl, by decide⟩

/-- C5 (amended): for every actor whose `pricingInfos` is absent or empty,
the pricing tool returns a snapshot with pricing model
`PAY_PER_PLATFORM_USAGE` and every optional field absent. -/
theorem c5_default_snapshot (actor_name : String) (a : ActorRecord) (now : Int)
    (h : a.pricingInfos = none ∨ a.pricingInfos = some []) :
    GetActorPricingInfoTool_run actor_name (some a) now =
      .ok { pricing_model := "PAY_PER_PLATFORM_USAGE"
            price_per_unit_usd := none
            trial_minutes := none
            apify_margin_percentage := none
            minimal_max_total_charge_usd := none
            pricing_per_event := none } := by
  rcases h with h | h <;> simp [GetActorPricingInfoTool_run, h]

/-- C5 witness: the default snapshot at a concrete actor with no pricing
entries. -/
theorem c5_witness :
    GetActorPricingInfoTool_run "apify/free-actor" (some { pricingInfos := some [] }) 42 =
      .ok { pricing_model := "PAY_PER_PLATFORM_USAGE"
            price_per_unit_usd := none
            trial_minutes := none
            apify_margin_percentage := none
            minimal_max_total_charge_usd := none
            pricing_per_event := none } :=
  c5_default_snapshot "apify/free-actor" { pricingInfos := some [] } 42 (Or.inr rfl)

/-- C9: when the first entry of a non-empty pricing list is future-dated, the
scan terminates immediately with no current entry, and the tool raises a
validation error (`PricingInfo.model_validate(None)`) instead of returning a
default snapshot. -/
theorem c9_all_future_raises (actor_name : String) (a : ActorRecord) (now : Int)
    (e : PricingEntry) (rest : List PricingEntry)
    (hp : a.pricingInfos = some (e :: rest)) (hfut : now < e.startedAt) :
    selectCurrentPricing now (e :: rest) none = none ∧
    GetActorPricingInfoTool_run actor_name (some a) now =
      .error "ValidationError: None is not a valid PricingInfo" := by
  have hscan : selectCurrentPricing now (e :: rest) none = none := by
    simp [selectCurrentPricing, hfut]
  exact ⟨hscan, by simp [GetActorPricingInfoTool_run, hp, hscan]⟩

/-- C9 witness: a single future-dated entry yields the validation error. -/
theorem c9_witness :
    selectCurrentPricing 0 [{ startedAt := 100, pricingModel := some "RENTAL" }] none = none ∧
    GetActorPricingInfoTool_run "apify/future-actor"
        (some { pricingInfos := some [{ startedAt := 100, pricingModel := some "RENTAL" }] }) 0 =
      .error "ValidationError: None is not a valid PricingInfo" :=
  c9_all_future_raises "apify/future-actor"
    { pricingInfos := some [{ startedAt := 100, pricingModel := some "RENTAL" }] } 0
    { startedAt := 100, pricingModel := some "RENTAL" } [] rfl (by decide)

/-! ### Claim about the entry point input validation -/

/-- C4: contrary to the claim, an invocation input lacking the `actorId`
attribute does not fail validation: `main` merges `fallback_input`
underneath the user input, so the missing key silently resolves to the
hardcoded `'apify/rag-web-browser'` and the run proceeds.  (The raise is
reachable only when the key is present and falsy.) -/
theorem c4_missing_actor_id_uses_fallback :
    main_resolve_actor_id { actorId := none, modelName := none, debug := none } =
      .ok "apify/rag-web-browser" ∧
    mergedActorId { actorId := none, modelName := none, debug := none } =
      some "apify/rag-web-browser" ∧
    main_resolve_actor_id { actorId := some none, modelName := none, debug := none } =
      .error "Missing the \"actorId\" attribute in the input!" :=
  ⟨rfl, rfl, rfl⟩

/-! ### Claims about the input-schema and documentation adapters -/

/-- C7: the input-schema tool raises a `ValueError` when the
`actorDefinition` object is missing from the build, and returns the
"schema not available" sentinel string (not an error) when the definition is
present but its `input` block is absent or empty. -/
theorem c7_definition_error_input_sentinel (actor_name : String) (build : BuildRecord) :
    (build.actorDefinition = none →
      tool_get_actor_input_schema actor_name build =
        .error s!"Actor definition not found in the Actor build for Actor: {actor_name}") ∧
    (∀ ad, build.actorDefinition = some ad → ad.input = none →
      tool_get_actor_input_schema actor_name build =
        .message "Actor input schema is not available.") := by
  constructor
  · intro h
    simp [tool_get_actor_input_schema, h]
  · intro ad had hin
    simp [tool_get_actor_input_schema, had, hin]

/-- C7 witness: both branches at concrete builds. -/
theorem c7_witness :
    tool_get_actor_input_schema "apify/no-def"
        { actorDefinition := none, actVersion := none } =
      .error "Actor definition not found in the Actor build for Actor: apify/no-def" ∧
    tool_get_actor_input_schema "apify/no-input"
        { actorDefinition := some { title := some "T", description := some "D",
                                    readme := none, input := none }
          actVersion := none } =
      .message "Actor input schema is not available." := by
  constructor
  · exact (c7_definition_error_input_sentinel "apify/no-def"
      { actorDefinition := none, actVersion := none }).1 rfl
  · exact (c7_definition_error_input_sentinel "apify/no-input"
      { actorDefinition := some { title := some "T", description := some "D",
                                  readme := none, input := none }
        actVersion := none }).2
      { title := some "T", description := some "D", readme := none, input := none } rfl rfl

/-- C6: every property of a returned `ActorInputDefinition` is the raw
property with its effective default resolved by
`prop.get('prefill', prop.get('default'))`: when a prefill is present it
wins over any default, and when only a default is present the default is
kept. -/
theorem c6_prefill_precedence (actor_name : String) (build : BuildRecord)
    (ad : ActorDefinitionRec) (inp : InputBlock) (d : ActorInputDefinition)
    (had : build.actorDefinition = some ad) (hinp : ad.input = some inp)
    (hok : tool_get_actor_input_schema actor_name build = .ok d) :
    d.properties = inp.properties.map (fun np => (np.1, resolveProperty np.2)) ∧
    (∀ (p : RawInputProperty) (v : JsonValue), p.prefill = some v →
      (resolveProperty p).default = some v) ∧
    (∀ p : RawInputProperty, p.prefill = none →
      (resolveProperty p).default = p.default) := by
  refine ⟨?_, ?_, ?_⟩
  · cases ht : ad.title <;> cases hd : ad.description <;>
      simp [tool_get_actor_input_schema, had, hinp, ht, hd] at hok
    rw [← hok]
  · intro p v hv
    simp [resolveProperty, hv]
  · intro p hp
    simp [resolveProperty, hp]

/-- C6 witness: a schema with a prefill-plus-default property and a
default-only property resolves the former to the prefill and the latter to
the default. -/
theorem c6_witness :
    tool_get_actor_input_schema "apify/rich-schema"
      { actorDefinition := some
          { title := some "Inspector"
            description := some "Desc"
            readme := none
            input := some { properties :=
              [("query", { title := "Query", description := "q", ptype := "string",
                           prefill := some (JsonValue.str "web"),
                           default := some (JsonValue.str "x") }),
               ("limit", { title := "Limit", description := "l", ptype := "integer",
                           prefill := none, default := some (JsonValue.num 10) })] } }
        actVersion := none } =
      .ok { title := "Inspector"
            description := "Desc"
            properties :=
              [("query", { title := "Query", description := "q", ptype := "string",
                           default := some (JsonValue.str "web") }),
               ("limit", { title := "Limit", description := "l", ptype := "integer",
                           default := some (JsonValue.num 10) })] } ∧
    ({ title := "Inspector"
       description := "Desc"
       properties :=
         [("query", { title := "Query", description := "q", ptype := "string",
                      default := some (JsonValue.str "web") }),
          ("limit", { title := "Limit", description := "l", ptype := "integer",
                      default := some (JsonValue.num 10) })] } : ActorInputDefinition).properties =
      ({ properties :=
           [("query", { title := "Query", description := "q", ptype := "string",
                        prefill := some (JsonValue.str "web"),
                        default := some (JsonValue.str "x") }),
            ("limit", { title := "Limit", description := "l", ptype := "integer",
                        prefill := none, default := some (JsonValue.num 10) })] } :
        InputBlock).properties.map (fun np => (np.1, resolveProperty np.2)) ∧
    (∀ (p : RawInputProperty) (v : JsonValue), p.prefill = some v →
      (resolveProperty p).default = some v) ∧
    (∀ p : RawInputProperty, p.prefill = none →
      (resolveProperty p).default = p.default) := by
  refine ⟨rfl, ?_⟩
  exact c6_prefill_precedence "apify/rich-schema"
    { actorDefinition := some
        { title := some "Inspector"
          description := some "Desc"
          readme := none
          input := some { properties :=
            [("query", { title := "Query", description := "q", ptype := "string",
                         prefill := some (JsonValue.str "web"),
                         default := some (JsonValue.str "x") }),
             ("limit", { title := "Limit", description := "l", ptype := "integer",
                         prefill := none, default := some (JsonValue.num 10) })] } }
      actVersion := none }
    { title := some "Inspector"
      description := some "Desc"
      readme := none
      input := some { properties :=
        [("query", { title := "Query", description := "q", ptype := "string",
                     prefill := some (JsonValue.str "web"),
                     default := some (JsonValue.str "x") }),
         ("limit", { title := "Limit", description := "l", ptype := "integer",
                     prefill := none, default := some (JsonValue.num 10) })] } }
    { properties :=
        [("query", { title := "Query", description := "q", ptype := "string",
                     prefill := some (JsonValue.str "web"),
                     default := some (JsonValue.str "x") }),
         ("limit", { title := "Limit", description := "l", ptype := "integer",
                     prefill := none, default := some (JsonValue.num 10) })] }
    { title := "Inspector"
      description := "Desc"
      properties :=
        [("query", { title := "Query", description := "q", ptype := "string",
                     default := some (JsonValue.str "web") }),
         ("limit", { title := "Limit", description := "l", ptype := "integer",
                     default := some (JsonValue.num 10) })] }
    rfl rfl rfl

/-- C8: the README tool raises a `ValueError` when the build's README is
absent or empty, and returns the README string itself when it is
non-empty. -/
theorem c8_readme_mandatory (actor_name : String) (build : BuildRecord) :
    ((readmeOf build = none ∨ readmeOf build = some "") →
      GetActorReadmeTool_run actor_name build =
        .error s!"Failed to get the README for the Actor {actor_name}") ∧
    (∀ r, readmeOf build = some r → r ≠ "" →
      GetActorReadmeTool_run actor_name build = .ok r) := by
  constructor
  · rintro (h | h) <;> simp [GetActorReadmeTool_run, h]
  · intro r hr hne
    simp [GetActorReadmeTool_run, hr, hne]

/-- C8 witness: both branches at concrete builds. -/
theorem c8_witness :
    GetActorReadmeTool_run "apify/no-docs"
        { actorDefinition := some { title := none, description := none,
                                    readme := some "", input := none }
          actVersion := none } =
      .error "Failed to get the README for the Actor apify/no-docs" ∧
    GetActorReadmeTool_run "apify/documented"
        { actorDefinition := some { title := none, description := none,
                                    readme := some "# Usage", input := none }
          actVersion := none } =
      .ok "# Usage" := by
  constructor
  · exact (c8_readme_mandatory "apify/no-docs"
      { actorDefinition := some { title := none, description := none,
                                  readme := some "", input := none }
        actVersion := none }).1 (Or.inr rfl)
  · exact (c8_readme_mandatory "apify/documented"
      { actorDefinition := some { title := none, description := none,
                                  readme := some "# Usage", input := none }
        actVersion := none }).2 "# Usage" rfl (by decide)

end ActorInspector
